import Mathlib

/-!
Verification of the frame-synchronization and render-target core of a
Rust/Vulkan renderer (`src/renderer/renderer.rs`, `src/vulkan/swapchain.rs`,
`src/vulkan/sync.rs`, `src/vulkan/render_pass.rs`, `src/vulkan/command_pool.rs`,
`src/pipeline/pipeline.rs`).  Each Rust function relevant to the verified
properties is embedded as an executable Lean definition; GPU-driver entry
points (which the code only forwards to) are treated as environment inputs.
Rust panics (out-of-bounds indexing) and `anyhow` errors are modelled by an
explicit outcome type.
-/

/-- Outcome of running a piece of Rust code: a panic (e.g. slice indexing out
of bounds), a surfaced `Result::Err`, or a successful value. -/
inductive RustOutcome (α : Type) where
  | panic (msg : String)
  | err (msg : String)
  | ok (v : α)
deriving DecidableEq, Repr

/-- `true` iff the outcome is a surfaced `Result::Err`. -/
def RustOutcome.isErr {α : Type} : RustOutcome α → Bool
  | .err _ => true
  | _ => false

/-- `true` iff the outcome is a Rust panic. -/
def RustOutcome.isPanic {α : Type} : RustOutcome α → Bool
  | .panic _ => true
  | _ => false

/-- `true` iff the outcome is a success. -/
def RustOutcome.isOk {α : Type} : RustOutcome α → Bool
  | .ok _ => true
  | _ => false

/-- `vk::Format` (an `i32` newtype in ash). -/
structure VkFormat where
  val : Int
deriving DecidableEq, Repr

/-- `VK_FORMAT_R8G8B8A8_SRGB = 43`. -/
def VkFormat.R8G8B8A8_SRGB : VkFormat := ⟨43⟩

/-- `VK_FORMAT_B8G8R8A8_SRGB = 50`, the format `choose_surface_format` scans for. -/
def VkFormat.B8G8R8A8_SRGB : VkFormat := ⟨50⟩

/-- `vk::ColorSpaceKHR` (an `i32` newtype in ash). -/
structure VkColorSpaceKHR where
  val : Int
deriving DecidableEq, Repr

/-- `VK_COLOR_SPACE_SRGB_NONLINEAR_KHR = 0`. -/
def VkColorSpaceKHR.SRGB_NONLINEAR : VkColorSpaceKHR := ⟨0⟩

/-- `vk::SurfaceFormatKHR`: a pixel format together with a color space. -/
structure VkSurfaceFormatKHR where
  format : VkFormat
  colorSpace : VkColorSpaceKHR
deriving DecidableEq, Repr

/-- `vk::PresentModeKHR` (an `i32` newtype in ash). -/
structure VkPresentModeKHR where
  val : Int
deriving DecidableEq, Repr

/-- `VK_PRESENT_MODE_MAILBOX_KHR = 1`. -/
def VkPresentModeKHR.MAILBOX : VkPresentModeKHR := ⟨1⟩

/-- `VK_PRESENT_MODE_FIFO_KHR = 2`. -/
def VkPresentModeKHR.FIFO : VkPresentModeKHR := ⟨2⟩

/-- `vk::Extent2D` (width and height are `u32`). -/
structure VkExtent2D where
  width : Nat
  height : Nat
deriving DecidableEq, Repr

/-- `u32::MAX`, the Vulkan sentinel for a "client decides" current extent. -/
def U32_MAX : Nat := 4294967295

/-- The fields of `vk::SurfaceCapabilitiesKHR` consulted by
`VulkanSwapchain::new` and `VulkanSwapchain::choose_extent`. -/
structure VkSurfaceCapabilitiesKHR where
  minImageCount : Nat
  maxImageCount : Nat
  currentExtent : VkExtent2D
  minImageExtent : VkExtent2D
  maxImageExtent : VkExtent2D
deriving DecidableEq, Repr

/-- The `for format in &available_formats` loop of
`VulkanSwapchain::choose_surface_format` (swapchain.rs lines 84-90): returns
the first listed format equal to `B8G8R8A8_SRGB` with the `SRGB_NONLINEAR`
color space, if any. -/
def findPreferredSurfaceFormat : List VkSurfaceFormatKHR → Option VkSurfaceFormatKHR
  | [] => none
  | f :: rest =>
    if f.format = VkFormat.B8G8R8A8_SRGB ∧ f.colorSpace = VkColorSpaceKHR.SRGB_NONLINEAR then
      some f
    else
      findPreferredSurfaceFormat rest

/-- `VulkanSwapchain::choose_surface_format` (swapchain.rs lines 78-93), given
the format list already obtained from the surface.  After the scan loop the
Rust code evaluates `available_formats[0]`, which panics on an empty list
instead of returning an `Err`. -/
def choose_surface_format (availableFormats : List VkSurfaceFormatKHR) :
    RustOutcome VkSurfaceFormatKHR :=
  match findPreferredSurfaceFormat availableFormats with
  | some f => .ok f
  | none =>
    match availableFormats with
    | [] => .panic "index out of bounds: the len is 0 but the index is 0"
    | f :: _ => .ok f

/-- The `for &mode in &available_modes` loop of
`VulkanSwapchain::choose_present_mode` (swapchain.rs lines 101-105): returns
the first listed mode equal to `MAILBOX`, if any. -/
def findMailboxMode : List VkPresentModeKHR → Option VkPresentModeKHR
  | [] => none
  | m :: rest =>
    if m = VkPresentModeKHR.MAILBOX then some m else findMailboxMode rest

/-- `VulkanSwapchain::choose_present_mode` (swapchain.rs lines 95-108), given
the present-mode list already obtained from the surface: first listed
`MAILBOX` if any, else `FIFO`.  An empty list is not an error: the fallback
`Ok(FIFO)` is returned. -/
def choose_present_mode (availableModes : List VkPresentModeKHR) :
    RustOutcome VkPresentModeKHR :=
  match findMailboxMode availableModes with
  | some m => .ok m
  | none => .ok VkPresentModeKHR.FIFO

/-- Rust `u32::clamp(self, min, max)` for `min ≤ max` (the only regime in
which the Rust function does not panic): below-min saturates to min,
above-max saturates to max. -/
def rustClampU32 (x lo hi : Nat) : Nat :=
  if x < lo then lo else if x > hi then hi else x

/-- `vk::AttachmentLoadOp`: `LOAD = 0`, `CLEAR = 1`, `DONT_CARE = 2`. -/
structure VkAttachmentLoadOp where
  val : Int
deriving DecidableEq, Repr

/-- `VK_ATTACHMENT_LOAD_OP_CLEAR = 1`. -/
def VkAttachmentLoadOp.CLEAR : VkAttachmentLoadOp := ⟨1⟩

/-- `VK_ATTACHMENT_LOAD_OP_DONT_CARE = 2`. -/
def VkAttachmentLoadOp.DONT_CARE : VkAttachmentLoadOp := ⟨2⟩

/-- `vk::AttachmentStoreOp`: `STORE = 0`, `DONT_CARE = 1`. -/
structure VkAttachmentStoreOp where
  val : Int
deriving DecidableEq, Repr

/-- `VK_ATTACHMENT_STORE_OP_STORE = 0`. -/
def VkAttachmentStoreOp.STORE : VkAttachmentStoreOp := ⟨0⟩

/-- `VK_ATTACHMENT_STORE_OP_DONT_CARE = 1`. -/
def VkAttachmentStoreOp.DONT_CARE : VkAttachmentStoreOp := ⟨1⟩

/-- `vk::ImageLayout` (an `i32` newtype in ash). -/
structure VkImageLayout where
  val : Int
deriving DecidableEq, Repr

/-- `VK_IMAGE_LAYOUT_UNDEFINED = 0`. -/
def VkImageLayout.UNDEFINED : VkImageLayout := ⟨0⟩

/-- `VK_IMAGE_LAYOUT_COLOR_ATTACHMENT_OPTIMAL = 2`. -/
def VkImageLayout.COLOR_ATTACHMENT_OPTIMAL : VkImageLayout := ⟨2⟩

/-- `VK_IMAGE_LAYOUT_PRESENT_SRC_KHR = 1000001002`. -/
def VkImageLayout.PRESENT_SRC_KHR : VkImageLayout := ⟨1000001002⟩

/-- `vk::PipelineStageFlags` bitmask value
`VK_PIPELINE_STAGE_COLOR_ATTACHMENT_OUTPUT_BIT = 0x400`. -/
def COLOR_ATTACHMENT_OUTPUT : Nat := 1024

/-- `vk::AccessFlags` bitmask value
`VK_ACCESS_COLOR_ATTACHMENT_WRITE_BIT = 0x100`. -/
def COLOR_ATTACHMENT_WRITE : Nat := 256

/-- `vk::AccessFlags::empty()`. -/
def ACCESS_EMPTY : Nat := 0

/-- `vk::SUBPASS_EXTERNAL = u32::MAX`. -/
def SUBPASS_EXTERNAL : Nat := 4294967295

/-- `vk::AttachmentDescription` as populated by `VulkanRenderPass::new`
(`samples` is the `TYPE_1` bit, value 1). -/
structure VkAttachmentDescription where
  format : VkFormat
  samples : Nat
  loadOp : VkAttachmentLoadOp
  storeOp : VkAttachmentStoreOp
  stencilLoadOp : VkAttachmentLoadOp
  stencilStoreOp : VkAttachmentStoreOp
  initialLayout : VkImageLayout
  finalLayout : VkImageLayout
deriving DecidableEq, Repr

/-- `vk::AttachmentReference`. -/
structure VkAttachmentReference where
  attachment : Nat
  layout : VkImageLayout
deriving DecidableEq, Repr

/-- `vk::SubpassDescription` as populated by `VulkanRenderPass::new`
(`pipelineBindPoint` is `GRAPHICS = 0`). -/
structure VkSubpassDescription where
  pipelineBindPoint : Nat
  colorAttachments : List VkAttachmentReference
deriving DecidableEq, Repr

/-- `vk::SubpassDependency`; stage and access masks are `u32` bitmasks. -/
structure VkSubpassDependency where
  srcSubpass : Nat
  dstSubpass : Nat
  srcStageMask : Nat
  srcAccessMask : Nat
  dstStageMask : Nat
  dstAccessMask : Nat
deriving DecidableEq, Repr

/-- `vk::RenderPassCreateInfo`. -/
structure VkRenderPassCreateInfo where
  attachments : List VkAttachmentDescription
  subpasses : List VkSubpassDescription
  dependencies : List VkSubpassDependency
deriving DecidableEq, Repr

/-- The render-pass descriptor built by `VulkanRenderPass::new`
(render_pass.rs lines 13-49) from the swapchain's surface format. -/
def renderPassCreateInfo (format : VkFormat) : VkRenderPassCreateInfo :=
  { attachments :=
      [{ format := format,
         samples := 1,
         loadOp := VkAttachmentLoadOp.CLEAR,
         storeOp := VkAttachmentStoreOp.STORE,
         stencilLoadOp := VkAttachmentLoadOp.DONT_CARE,
         stencilStoreOp := VkAttachmentStoreOp.DONT_CARE,
         initialLayout := VkImageLayout.UNDEFINED,
         finalLayout := VkImageLayout.PRESENT_SRC_KHR }],
    subpasses :=
      [{ pipelineBindPoint := 0,
         colorAttachments :=
           [{ attachment := 0, layout := VkImageLayout.COLOR_ATTACHMENT_OPTIMAL }] }],
    dependencies :=
      [{ srcSubpass := SUBPASS_EXTERNAL,
         dstSubpass := 0,
         srcStageMask := COLOR_ATTACHMENT_OUTPUT,
         srcAccessMask := ACCESS_EMPTY,
         dstStageMask := COLOR_ATTACHMENT_OUTPUT,
         dstAccessMask := COLOR_ATTACHMENT_WRITE }] }

/-- `VulkanSwapchain::choose_extent` (swapchain.rs lines 110-132), given the
capabilities already obtained from the surface: the surface-reported current
extent verbatim unless its width is the `u32::MAX` sentinel, in which case
the caller-supplied window size is clamped into the surface's extent
bounds. -/
def choose_extent (capabilities : VkSurfaceCapabilitiesKHR)
    (windowWidth windowHeight : Nat) : VkExtent2D :=
  if capabilities.currentExtent.width ≠ U32_MAX then
    capabilities.currentExtent
  else
    { width := rustClampU32 windowWidth capabilities.minImageExtent.width
        capabilities.maxImageExtent.width,
      height := rustClampU32 windowHeight capabilities.minImageExtent.height
        capabilities.maxImageExtent.height }

/-- A synchronization primitive handle, identified by the ring it was
allocated from (`VulkanSyncObjects` owns one semaphore/fence per slot of each
of its three rings, sync.rs lines 24-53) and its slot index. -/
inductive SyncHandle where
  | imageAvailableSem (i : Nat)
  | renderFinishedSem (i : Nat)
  | inFlightFence (i : Nat)
deriving DecidableEq, Repr

/-- The `vk::SubmitInfo` built by `VulkanRenderer::submit_command_buffer`
(renderer.rs lines 156-160); command buffers are identified by their index in
the `VulkanCommandPool` ring. -/
structure SubmitInfo where
  waitSemaphores : List SyncHandle
  waitDstStageMask : List Nat
  commandBuffers : List Nat
  signalSemaphores : List SyncHandle
deriving DecidableEq, Repr

/-- The clear color `[0.1, 0.1, 0.1, 1.0]` passed by
`VulkanRenderer::record_command_buffer` to `begin_render_pass`
(renderer.rs line 102), as exact rationals. -/
def recordClearColor : List ℚ := [1/10, 1/10, 1/10, 1]

/-- One observable step of a successful `draw_frame` call, in
program order. -/
inductive FrameEvent where
  | waitFence (slot : Nat)
  | acquireImage (signal : SyncHandle)
  | resetFence (slot : Nat)
  | resetCommandBuffer (buffer : Nat)
  | beginCommandBuffer (buffer : Nat)
  | beginRenderPass (buffer : Nat) (clearColor : List ℚ)
  | bindPipeline (buffer : Nat)
  | setViewport (buffer : Nat)
  | setScissor (buffer : Nat)
  | draw (buffer : Nat) (vertexCount instanceCount : Nat)
  | endRenderPass (buffer : Nat)
  | endCommandBuffer (buffer : Nat)
  | submit (info : SubmitInfo) (fence : SyncHandle)
  | present (waitSemaphores : List SyncHandle) (imageIndices : List Nat)
  | advanceFrame (next : Nat)
deriving DecidableEq, Repr

/-- The mutable state of `VulkanRenderer` (renderer.rs lines 12-17):
the frame counter and the hardcoded in-flight bound. -/
structure RendererState where
  currentFrame : Nat
  maxFramesInFlight : Nat
deriving DecidableEq, Repr

/-- `VulkanRenderer::new` (renderer.rs lines 20-30): counter 0,
`max_frames_in_flight` hardcoded to 3. -/
def VulkanRenderer.new : RendererState :=
  { currentFrame := 0, maxFramesInFlight := 3 }

/-- The event trace of one fully successful `draw_frame` body
(renderer.rs lines 42-80), with `record_command_buffer` (lines 85-141),
`submit_command_buffer` (lines 143-173) and `present_frame` (lines 175-198)
inlined: `cf` is `self.current_frame`, `maxF` is `self.max_frames_in_flight`,
`syncN` the size of the `VulkanSyncObjects` rings, and `imageIndex` the index
returned by `acquire_next_image`. -/
def drawFrameTrace (syncN maxF cf imageIndex : Nat) : List FrameEvent :=
  [ .waitFence cf,
    .acquireImage (.imageAvailableSem (cf % syncN)),
    .resetFence cf,
    .resetCommandBuffer imageIndex,
    .beginCommandBuffer imageIndex,
    .beginRenderPass imageIndex recordClearColor,
    .bindPipeline imageIndex,
    .setViewport imageIndex,
    .setScissor imageIndex,
    .draw imageIndex 3 1,
    .endRenderPass imageIndex,
    .endCommandBuffer imageIndex,
    .submit
      { waitSemaphores := [.imageAvailableSem cf],
        waitDstStageMask := [COLOR_ATTACHMENT_OUTPUT],
        commandBuffers := [imageIndex],
        signalSemaphores := [.renderFinishedSem cf] }
      (.inFlightFence cf),
    .present [.renderFinishedSem cf] [imageIndex],
    .advanceFrame ((cf + 1) % maxF) ]

/-- `VulkanRenderer::draw_frame` (renderer.rs lines 32-83).  `syncN` is the
length of the `VulkanSyncObjects` rings and `cmdN` the length of the
`VulkanCommandPool` buffer ring (both `swapchain.images.len()` in main.rs
lines 93-100).  The driver call `acquire_next_image` is an environment input:
an error string, or an image index paired with the ignored `is_suboptimal`
flag.  Indexing a ring beyond its length is a Rust panic:
`wait_for_fence` / `get_frame_sync_objects` / `reset_fence` index the sync
rings at `current_frame` (sync.rs lines 70, 82, 94-98) and
`reset_command_buffer` indexes the command-buffer ring at the acquired
`image_index` (command_pool.rs lines 51-53, 86-87).  `queue_present` is the
second environment input: an error string, or the ignored suboptimal flag;
a present error is surfaced before the frame index is advanced.  The
remaining driver calls on valid handles are modelled as succeeding. -/
def drawFrame (syncN cmdN : Nat) (s : RendererState)
    (acquireResult : Except String (Nat × Bool))
    (presentResult : Except String Bool) :
    RustOutcome (List FrameEvent × RendererState) :=
  if s.currentFrame < syncN then
    match acquireResult with
    | .error e => .err ("Failed to acquire swapchain image: " ++ e)
    | .ok (imageIndex, _isSuboptimal) =>
      if imageIndex < cmdN then
        match presentResult with
        | .error e => .err ("Failed to present swapchain image: " ++ e)
        | .ok _isSuboptimalPresent =>
          .ok (drawFrameTrace syncN s.maxFramesInFlight s.currentFrame imageIndex,
               { currentFrame := (s.currentFrame + 1) % s.maxFramesInFlight,
                 maxFramesInFlight := s.maxFramesInFlight })
      else
        .panic "index out of bounds: command_buffers"
  else
    .panic "index out of bounds: in_flight_fences"

/-- The trace of a successful draw call (empty for a panic or error). -/
def successTrace (o : RustOutcome (List FrameEvent × RendererState)) : List FrameEvent :=
  match o with
  | .ok (tr, _) => tr
  | _ => []

/-- Drive `draw_frame` repeatedly (one call per element of `inputs`, each an
acquired image index with its `is_suboptimal` flag), recording the slot
(`current_frame`) used by each successful call; `none` if any call fails. -/
def slotVisitation (syncN cmdN : Nat) (s : RendererState) :
    List (Nat × Bool) → Option (List Nat)
  | [] => some []
  | inp :: rest =>
    match drawFrame syncN cmdN s (.ok inp) (.ok false) with
    | .ok (_, s') => (slotVisitation syncN cmdN s' rest).map (s.currentFrame :: ·)
    | _ => none

/-- Drive `draw_frame` `k` times with every acquire returning image index 0
(non-suboptimal) and every present succeeding, propagating the first panic
or error. -/
def runDraws (syncN cmdN : Nat) : Nat → RendererState → RustOutcome RendererState
  | 0, s => .ok s
  | k + 1, s =>
    match drawFrame syncN cmdN s (.ok (0, false)) (.ok false) with
    | .ok (_, s') => runDraws syncN cmdN k s'
    | .panic m => .panic m
    | .err m => .err m

/-- First index of an event satisfying `p` in a trace. -/
def idxOf? (p : FrameEvent → Bool) : List FrameEvent → Option Nat
  | [] => none
  | e :: tr => if p e then some 0 else (idxOf? p tr).map (· + 1)

/-- Recognizes the fence wait issued by `wait_for_fence`. -/
def isWaitFenceEvent : FrameEvent → Bool
  | .waitFence _ => true
  | _ => false

/-- Recognizes the `acquire_next_image` call. -/
def isAcquireEvent : FrameEvent → Bool
  | .acquireImage _ => true
  | _ => false

/-- Recognizes the fence reset issued by `reset_fence`. -/
def isResetFenceEvent : FrameEvent → Bool
  | .resetFence _ => true
  | _ => false

/-- Recognizes the command-buffer reset that starts re-recording. -/
def isResetCommandBufferEvent : FrameEvent → Bool
  | .resetCommandBuffer _ => true
  | _ => false

/-- Recognizes the queue submission. -/
def isSubmitEvent : FrameEvent → Bool
  | .submit _ _ => true
  | _ => false

/-- Recognizes the presentation request. -/
def isPresentEvent : FrameEvent → Bool
  | .present _ _ => true
  | _ => false

/-- Recognizes the frame-index advance. -/
def isAdvanceEvent : FrameEvent → Bool
  | .advanceFrame _ => true
  | _ => false

/-- Claimed step order of C5, stated from the spec's words for comparison
with the source trace: the image acquire strictly precedes the fence wait. -/
def claimedAcquireBeforeWait (tr : List FrameEvent) : Bool :=
  match idxOf? isAcquireEvent tr, idxOf? isWaitFenceEvent tr with
  | some ia, some iw => ia < iw
  | _, _ => false

/-- One entry of the builder's `shader_entries` vector
(pipeline.rs line 19): a created shader-module handle, a
`vk::ShaderStageFlags` bitmask, and the entry-point name. -/
structure ShaderEntry where
  module : Nat
  stage : Nat
  entryPoint : String
deriving DecidableEq, Repr

/-- `vk::ShaderStageFlags::VERTEX = 0x1`. -/
def SHADER_STAGE_VERTEX : Nat := 1

/-- `vk::ShaderStageFlags::FRAGMENT = 0x10`. -/
def SHADER_STAGE_FRAGMENT : Nat := 16

/-- The configuration state accumulated by `VulkanPipelineBuilder`
(pipeline.rs lines 14-53).  Handles (`render_pass`, descriptor-set layouts,
shader modules) are opaque naturals; `f32` fields are exact rationals. -/
structure VulkanPipelineBuilder where
  render_pass : Option Nat
  extent : Option VkExtent2D
  shader_entries : List ShaderEntry
  descriptor_set_layouts : List Nat
  push_constant_ranges : List Nat
  vertex_input_bindings : List Nat
  vertex_input_attributes : List Nat
  topology : Nat
  primitive_restart_enable : Bool
  dynamic_states : List Nat
  polygon_mode : Nat
  cull_mode : Nat
  front_face : Nat
  line_width : ℚ
  depth_clamp_enable : Bool
  rasterization_samples : Nat
  sample_shading_enable : Bool
  depth_test_enable : Bool
  depth_write_enable : Bool
  depth_compare_op : Nat
  depth_bounds_test_enable : Bool
  stencil_test_enable : Bool
  color_blend_attachments : List Nat
  logic_op_enable : Bool
  logic_op : Nat
  blend_constants : List ℚ
deriving DecidableEq, Repr

/-- `VulkanPipelineBuilder::new` (pipeline.rs lines 56-88): all required
fields unset, defaults for the rest (`TRIANGLE_LIST = 3`, `FILL = 0`,
`CullModeFlags::BACK = 2`, `FrontFace::CLOCKWISE = 1`, `TYPE_1 = 1`,
`CompareOp::LESS = 1`, `LogicOp::COPY = 3`). -/
def VulkanPipelineBuilder.new : VulkanPipelineBuilder :=
  { render_pass := none,
    extent := none,
    shader_entries := [],
    descriptor_set_layouts := [],
    push_constant_ranges := [],
    vertex_input_bindings := [],
    vertex_input_attributes := [],
    topology := 3,
    primitive_restart_enable := false,
    dynamic_states := [],
    polygon_mode := 0,
    cull_mode := 2,
    front_face := 1,
    line_width := 1,
    depth_clamp_enable := false,
    rasterization_samples := 1,
    sample_shading_enable := false,
    depth_test_enable := false,
    depth_write_enable := false,
    depth_compare_op := 1,
    depth_bounds_test_enable := false,
    stencil_test_enable := false,
    color_blend_attachments := [],
    logic_op_enable := false,
    logic_op := 3,
    blend_constants := [0, 0, 0, 0] }

/-- `VulkanPipelineBuilder::set_render_pass` (pipeline.rs lines 90-93). -/
def VulkanPipelineBuilder.set_render_pass (b : VulkanPipelineBuilder)
    (rp : Nat) : VulkanPipelineBuilder :=
  { b with render_pass := some rp }

/-- `VulkanPipelineBuilder::set_extent` (pipeline.rs lines 95-98). -/
def VulkanPipelineBuilder.set_extent (b : VulkanPipelineBuilder)
    (e : VkExtent2D) : VulkanPipelineBuilder :=
  { b with extent := some e }

/-- `VulkanPipelineBuilder::with_shader_spv` (pipeline.rs lines 110-123):
creates a shader module from the SPIR-V bytes (the created module handle is
the environment input `module`) and pushes the entry; a missing explicit
entry point defaults to `"main"`. -/
def VulkanPipelineBuilder.with_shader_spv (b : VulkanPipelineBuilder)
    (module stage : Nat) (entryPoint : Option String) : VulkanPipelineBuilder :=
  { b with shader_entries :=
      b.shader_entries ++ [⟨module, stage, entryPoint.getD "main"⟩] }

/-- `VulkanPipelineBuilder::with_vertex_spv` (pipeline.rs lines 125-127). -/
def VulkanPipelineBuilder.with_vertex_spv (b : VulkanPipelineBuilder)
    (module : Nat) : VulkanPipelineBuilder :=
  b.with_shader_spv module SHADER_STAGE_VERTEX none

/-- `VulkanPipelineBuilder::with_fragment_spv` (pipeline.rs lines 129-131). -/
def VulkanPipelineBuilder.with_fragment_spv (b : VulkanPipelineBuilder)
    (module : Nat) : VulkanPipelineBuilder :=
  b.with_shader_spv module SHADER_STAGE_FRAGMENT none

/-- `VulkanPipelineBuilder::with_topology` (pipeline.rs lines 143-146). -/
def VulkanPipelineBuilder.with_topology (b : VulkanPipelineBuilder)
    (t : Nat) : VulkanPipelineBuilder :=
  { b with topology := t }

/-- `VulkanPipelineBuilder::with_dynamic_states` (pipeline.rs lines 163-166). -/
def VulkanPipelineBuilder.with_dynamic_states (b : VulkanPipelineBuilder)
    (states : List Nat) : VulkanPipelineBuilder :=
  { b with dynamic_states := b.dynamic_states ++ states }

/-- The validated configuration a successful `build()` hands to
`create_graphics_pipelines` (the driver handle creation itself is external). -/
structure VulkanPipelineConfig where
  renderPass : Nat
  extent : VkExtent2D
  stages : List ShaderEntry
  topology : Nat
  dynamicStates : List Nat
  colorBlendAttachments : List Nat
deriving DecidableEq, Repr

/-- The validation boundary of `VulkanPipelineBuilder::build`
(pipeline.rs lines 263-275): fails with the source's exact `bail!` messages
when `render_pass` is unset, when `extent` is unset, or when no shader stage
has been added; otherwise assembles the pipeline configuration. -/
def VulkanPipelineBuilder.build (b : VulkanPipelineBuilder) :
    Except String VulkanPipelineConfig :=
  match b.render_pass with
  | none => .error "render_pass is required"
  | some rp =>
    match b.extent with
    | none => .error "extent is required"
    | some e =>
      if b.shader_entries.isEmpty then
        .error "at least one shader stage is required"
      else
        .ok { renderPass := rp,
              extent := e,
              stages := b.shader_entries,
              topology := b.topology,
              dynamicStates := b.dynamic_states,
              colorBlendAttachments := b.color_blend_attachments }

/-- The Boolean predicate of the `choose_surface_format` scan loop. -/
def isPreferredSurfaceFormat (f : VkSurfaceFormatKHR) : Bool :=
  f.format = VkFormat.B8G8R8A8_SRGB ∧ f.colorSpace = VkColorSpaceKHR.SRGB_NONLINEAR

lemma findPreferredSurfaceFormat_eq_find (l : List VkSurfaceFormatKHR) :
    findPreferredSurfaceFormat l = l.find? isPreferredSurfaceFormat := by
  induction l with
  | nil => rfl
  | cons f rest ih =>
    by_cases hf : f.format = VkFormat.B8G8R8A8_SRGB ∧
        f.colorSpace = VkColorSpaceKHR.SRGB_NONLINEAR
    · simp [findPreferredSurfaceFormat, List.find?, isPreferredSurfaceFormat, hf]
    · simp [findPreferredSurfaceFormat, List.find?, isPreferredSurfaceFormat, hf, ih]

/-- C2 (corrected claim): for every non-empty format list, the surface-format
chooser returns the first listed format that is exactly `B8G8R8A8_SRGB` with
the `SRGB_NONLINEAR` color space (the `List.find?` of that predicate, scanning
in listed order), and the first listed format when no such entry exists; in
the claim's two-element scenario the chosen format IS
`{B8G8R8A8_SRGB, SRGB_NONLINEAR}`. -/
theorem choose_surface_format_policy (formats : List VkSurfaceFormatKHR)
    (f : VkSurfaceFormatKHR) (rest : List VkSurfaceFormatKHR)
    (hne : formats = f :: rest) :
    (∀ g, formats.find? isPreferredSurfaceFormat = some g →
      choose_surface_format formats = .ok g)
    ∧ (formats.find? isPreferredSurfaceFormat = none →
      choose_surface_format formats = .ok f)
    ∧ choose_surface_format
        [⟨VkFormat.R8G8B8A8_SRGB, VkColorSpaceKHR.SRGB_NONLINEAR⟩,
         ⟨VkFormat.B8G8R8A8_SRGB, VkColorSpaceKHR.SRGB_NONLINEAR⟩]
        = .ok ⟨VkFormat.B8G8R8A8_SRGB, VkColorSpaceKHR.SRGB_NONLINEAR⟩ := by
  refine ⟨?_, ?_, by decide⟩
  · intro g hg
    unfold choose_surface_format
    rw [findPreferredSurfaceFormat_eq_find, hg]
  · intro hg
    unfold choose_surface_format
    rw [findPreferredSurfaceFormat_eq_find, hg, hne]

/-- C2 witness: the policy theorem applied to the scenario list. -/
theorem choose_surface_format_policy_witness :
    choose_surface_format
      [⟨VkFormat.R8G8B8A8_SRGB, VkColorSpaceKHR.SRGB_NONLINEAR⟩,
       ⟨VkFormat.B8G8R8A8_SRGB, VkColorSpaceKHR.SRGB_NONLINEAR⟩]
      = .ok ⟨VkFormat.B8G8R8A8_SRGB, VkColorSpaceKHR.SRGB_NONLINEAR⟩ :=
  (choose_surface_format_policy
    [⟨VkFormat.R8G8B8A8_SRGB, VkColorSpaceKHR.SRGB_NONLINEAR⟩,
     ⟨VkFormat.B8G8R8A8_SRGB, VkColorSpaceKHR.SRGB_NONLINEAR⟩]
    ⟨VkFormat.R8G8B8A8_SRGB, VkColorSpaceKHR.SRGB_NONLINEAR⟩
    [⟨VkFormat.B8G8R8A8_SRGB, VkColorSpaceKHR.SRGB_NONLINEAR⟩] rfl).1
    ⟨VkFormat.B8G8R8A8_SRGB, VkColorSpaceKHR.SRGB_NONLINEAR⟩ (by decide)

/-- C2 counterexample: on the claim's scenario list the chooser picks
`{B8G8R8A8_SRGB, SRGB_NONLINEAR}` (the second listed entry), not the first
listed 8-bit sRGB format `{R8G8B8A8_SRGB, SRGB_NONLINEAR}` — the claim's
"NOT {B8G8R8A8, SRGB_NONLINEAR}" is false on the code. -/
theorem choose_surface_format_scenario_cx :
    choose_surface_format
      [⟨VkFormat.R8G8B8A8_SRGB, VkColorSpaceKHR.SRGB_NONLINEAR⟩,
       ⟨VkFormat.B8G8R8A8_SRGB, VkColorSpaceKHR.SRGB_NONLINEAR⟩]
      = .ok ⟨VkFormat.B8G8R8A8_SRGB, VkColorSpaceKHR.SRGB_NONLINEAR⟩
    ∧ choose_surface_format
        [⟨VkFormat.R8G8B8A8_SRGB, VkColorSpaceKHR.SRGB_NONLINEAR⟩,
         ⟨VkFormat.B8G8R8A8_SRGB, VkColorSpaceKHR.SRGB_NONLINEAR⟩]
        ≠ .ok ⟨VkFormat.R8G8B8A8_SRGB, VkColorSpaceKHR.SRGB_NONLINEAR⟩ := by
  decide

/-- C3 (corrected claim): on zero surface formats the chooser PANICS (Rust
index out of bounds on `available_formats[0]`) rather than returning a
surfaced error, and on zero present modes the chooser SUCCEEDS with the
`FIFO` fallback, so swapchain construction does not fail there at all. -/
theorem empty_surface_reports_panic_or_fallback :
    choose_surface_format [] =
      .panic "index out of bounds: the len is 0 but the index is 0"
    ∧ choose_present_mode [] = .ok VkPresentModeKHR.FIFO := by
  exact ⟨rfl, rfl⟩

/-- C3 counterexample: with zero formats the outcome is a panic, not an
`Err`; with zero present modes the outcome is a success, not an `Err` —
refuting "fails with a surfaced error rather than panicking or succeeding"
on both inputs. -/
theorem empty_surface_reports_cx :
    (choose_surface_format []).isErr = false
    ∧ (choose_surface_format []).isPanic = true
    ∧ (choose_present_mode []).isErr = false
    ∧ (choose_present_mode []).isOk = true := by
  decide

lemma drawFrame_ok (syncN cmdN : Nat) (s : RendererState) (ii : Nat)
    (sub psub : Bool) (h1 : s.currentFrame < syncN) (h2 : ii < cmdN) :
    drawFrame syncN cmdN s (.ok (ii, sub)) (.ok psub) =
      .ok (drawFrameTrace syncN s.maxFramesInFlight s.currentFrame ii,
           { currentFrame := (s.currentFrame + 1) % s.maxFramesInFlight,
             maxFramesInFlight := s.maxFramesInFlight }) := by
  simp [drawFrame, h1, h2]

/-- C1: evidence of the index mismatch.  In the draw of frame slot 0 whose
acquire returned image index 1 (rings of size 3, as for a 3-image
swapchain), `draw_frame` waits and resets the in-flight fence of ring
index 0 but resets and re-records the command buffer of ring index 1 — the
buffer indexed by the acquired image — and attaches fence 0 to the
submission referencing buffer 1.  The fence waited and the command buffer
re-recorded do NOT belong to the same ring index, so the wait does not
guard the re-recorded buffer's own pending submission. -/
theorem draw_frame_fence_buffer_ring_mismatch :
    FrameEvent.waitFence 0
        ∈ successTrace (drawFrame 3 3 VulkanRenderer.new (.ok (1, false)) (.ok false))
    ∧ FrameEvent.resetFence 0
        ∈ successTrace (drawFrame 3 3 VulkanRenderer.new (.ok (1, false)) (.ok false))
    ∧ FrameEvent.resetCommandBuffer 1
        ∈ successTrace (drawFrame 3 3 VulkanRenderer.new (.ok (1, false)) (.ok false))
    ∧ FrameEvent.waitFence 1
        ∉ successTrace (drawFrame 3 3 VulkanRenderer.new (.ok (1, false)) (.ok false))
    ∧ FrameEvent.submit
        { waitSemaphores := [.imageAvailableSem 0],
          waitDstStageMask := [COLOR_ATTACHMENT_OUTPUT],
          commandBuffers := [1],
          signalSemaphores := [.renderFinishedSem 0] }
        (.inFlightFence 0)
        ∈ successTrace (drawFrame 3 3 VulkanRenderer.new (.ok (1, false)) (.ok false)) := by
  decide

/-- C5 (corrected claim): within every successful frame the orchestrator's
actual step order is: wait on the current slot's fence, THEN acquire the next
image, then reset that fence, then reset/record the slot-independent command
buffer, then submit, then present, then advance the frame index — the fence
wait precedes acquisition, and only the fence reset falls between acquisition
and recording. -/
theorem draw_frame_step_order (syncN cmdN : Nat) (s : RendererState) (ii : Nat)
    (sub psub : Bool) (h1 : s.currentFrame < syncN) (h2 : ii < cmdN) :
    idxOf? isWaitFenceEvent
        (successTrace (drawFrame syncN cmdN s (.ok (ii, sub)) (.ok psub))) = some 0
    ∧ idxOf? isAcquireEvent
        (successTrace (drawFrame syncN cmdN s (.ok (ii, sub)) (.ok psub))) = some 1
    ∧ idxOf? isResetFenceEvent
        (successTrace (drawFrame syncN cmdN s (.ok (ii, sub)) (.ok psub))) = some 2
    ∧ idxOf? isResetCommandBufferEvent
        (successTrace (drawFrame syncN cmdN s (.ok (ii, sub)) (.ok psub))) = some 3
    ∧ idxOf? isSubmitEvent
        (successTrace (drawFrame syncN cmdN s (.ok (ii, sub)) (.ok psub))) = some 12
    ∧ idxOf? isPresentEvent
        (successTrace (drawFrame syncN cmdN s (.ok (ii, sub)) (.ok psub))) = some 13
    ∧ idxOf? isAdvanceEvent
        (successTrace (drawFrame syncN cmdN s (.ok (ii, sub)) (.ok psub))) = some 14
    ∧ claimedAcquireBeforeWait
        (successTrace (drawFrame syncN cmdN s (.ok (ii, sub)) (.ok psub))) = false := by
  rw [drawFrame_ok syncN cmdN s ii sub psub h1 h2]
  simp [successTrace, drawFrameTrace, idxOf?, claimedAcquireBeforeWait,
    isWaitFenceEvent, isAcquireEvent, isResetFenceEvent, isResetCommandBufferEvent,
    isSubmitEvent, isPresentEvent, isAdvanceEvent]

/-- C5 witness: the step-order theorem applied to slot 0 with acquired image
index 0 and rings of size 3. -/
theorem draw_frame_step_order_witness :
    idxOf? isWaitFenceEvent
        (successTrace (drawFrame 3 3 VulkanRenderer.new (.ok (0, false)) (.ok false))) = some 0
    ∧ idxOf? isAcquireEvent
        (successTrace (drawFrame 3 3 VulkanRenderer.new (.ok (0, false)) (.ok false))) = some 1 :=
  ⟨(draw_frame_step_order 3 3 VulkanRenderer.new 0 false false (by decide) (by decide)).1,
   (draw_frame_step_order 3 3 VulkanRenderer.new 0 false false (by decide) (by decide)).2.1⟩

/-- C5 counterexample: in the concrete successful frame (slot 0, image 0,
rings of size 3) the fence wait sits at trace position 0 and the acquire at
position 1, so the claimed "acquire, then wait" order is false: the acquire
does not precede the fence wait. -/
theorem draw_frame_acquire_first_cx :
    idxOf? isWaitFenceEvent
        (successTrace (drawFrame 3 3 VulkanRenderer.new (.ok (0, false)) (.ok false))) = some 0
    ∧ idxOf? isAcquireEvent
        (successTrace (drawFrame 3 3 VulkanRenderer.new (.ok (0, false)) (.ok false))) = some 1
    ∧ claimedAcquireBeforeWait
        (successTrace (drawFrame 3 3 VulkanRenderer.new (.ok (0, false)) (.ok false))) = false := by
  decide

lemma slotVisitation_formula (syncN cmdN : Nat) (h3 : 3 ≤ syncN) :
    ∀ (inputs : List (Nat × Bool)) (cf : Nat), cf < 3 →
      (∀ p ∈ inputs, p.1 < cmdN) →
      slotVisitation syncN cmdN { currentFrame := cf, maxFramesInFlight := 3 } inputs
        = some ((List.range inputs.length).map (fun j => (cf + j) % 3)) := by
  intro inputs
  induction inputs with
  | nil =>
    intro cf hcf hval
    simp [slotVisitation]
  | cons inp rest ih =>
    intro cf hcf hval
    obtain ⟨ii, sub⟩ := inp
    have hii : ii < cmdN := hval (ii, sub) (List.mem_cons_self _ _)
    have hcf' : cf < syncN := lt_of_lt_of_le hcf h3
    have hrec := ih ((cf + 1) % 3) (Nat.mod_lt _ (by norm_num))
      (fun p hp => hval p (List.mem_cons_of_mem _ hp))
    simp only [slotVisitation,
      drawFrame_ok syncN cmdN { currentFrame := cf, maxFramesInFlight := 3 } ii sub false
        hcf' hii, hrec]
    simp only [Option.map_some', List.length_cons, List.range_succ_eq_map,
      List.map_cons, List.map_map, Option.some.injEq, List.cons.injEq]
    constructor
    · omega
    · refine List.map_congr_left ?_
      intro j hj
      simp only [Function.comp]
      omega

/-- C4: every successful `draw_frame` call advances the frame counter by
exactly one (modulo the hardcoded bound of 3), the result is independent of
the suboptimal flags reported by acquire and present, and for rings of
size ≥ 3 the slot visitation order of any 7 successful redraw calls starting
from a fresh renderer is `0,1,2,0,1,2,0` (the active slot of call `k` is
`k mod 3`). -/
theorem frame_counter_and_slot_order (syncN cmdN : Nat)
    (inputs : List (Nat × Bool)) (h3 : 3 ≤ syncN)
    (hval : ∀ p ∈ inputs, p.1 < cmdN) (h7 : inputs.length = 7) :
    slotVisitation syncN cmdN VulkanRenderer.new inputs = some [0, 1, 2, 0, 1, 2, 0]
    ∧ (∀ (s : RendererState) (ii : Nat) (asub psub : Bool)
        (tr : List FrameEvent) (s' : RendererState),
        drawFrame syncN cmdN s (.ok (ii, asub)) (.ok psub) = .ok (tr, s') →
        s'.currentFrame = (s.currentFrame + 1) % s.maxFramesInFlight
        ∧ s'.maxFramesInFlight = s.maxFramesInFlight)
    ∧ (∀ (s : RendererState) (ii : Nat) (asub1 psub1 asub2 psub2 : Bool),
        drawFrame syncN cmdN s (.ok (ii, asub1)) (.ok psub1)
          = drawFrame syncN cmdN s (.ok (ii, asub2)) (.ok psub2)) := by
  refine ⟨?_, ?_, ?_⟩
  · have h := slotVisitation_formula syncN cmdN h3 inputs 0 (by norm_num) hval
    rw [h7] at h
    exact h.trans (by decide)
  · intro s ii asub psub tr s' h
    by_cases h1 : s.currentFrame < syncN
    · by_cases h2 : ii < cmdN
      · rw [drawFrame_ok syncN cmdN s ii asub psub h1 h2] at h
        injection h with h'
        injection h' with htr hs
        subst hs
        exact ⟨rfl, rfl⟩
      · simp [drawFrame, h1, h2] at h
    · simp [drawFrame, h1] at h
  · intro s ii asub1 psub1 asub2 psub2
    rfl

/-- C4 witness: seven concrete redraw calls (mixed image indices and
suboptimal flags) on rings of size 3 visit the slots `0,1,2,0,1,2,0`. -/
theorem frame_counter_and_slot_order_witness :
    slotVisitation 3 3 VulkanRenderer.new
      [(0, false), (1, true), (2, false), (0, true), (1, false), (2, true), (0, false)]
      = some [0, 1, 2, 0, 1, 2, 0] :=
  (frame_counter_and_slot_order 3 3
    [(0, false), (1, true), (2, false), (0, true), (1, false), (2, true), (0, false)]
    (by decide) (by decide) (by decide)).1

/-- C6: every successful frame contains exactly one queue submission, and it
waits on exactly the slot's image-acquired semaphore at the
color-attachment-output stage, carries exactly the one re-recorded command
buffer, signals exactly the slot's render-finished semaphore, and attaches
the slot's in-flight fence; the one presentation request waits on exactly the
render-finished semaphore of the same slot. -/
theorem submit_and_present_sync_objects (syncN cmdN : Nat) (s : RendererState)
    (ii : Nat) (sub psub : Bool) (h1 : s.currentFrame < syncN) (h2 : ii < cmdN) :
    (successTrace (drawFrame syncN cmdN s (.ok (ii, sub)) (.ok psub))).filter isSubmitEvent
      = [.submit
          { waitSemaphores := [.imageAvailableSem s.currentFrame],
            waitDstStageMask := [COLOR_ATTACHMENT_OUTPUT],
            commandBuffers := [ii],
            signalSemaphores := [.renderFinishedSem s.currentFrame] }
          (.inFlightFence s.currentFrame)]
    ∧ (successTrace (drawFrame syncN cmdN s (.ok (ii, sub)) (.ok psub))).filter isPresentEvent
      = [.present [.renderFinishedSem s.currentFrame] [ii]] := by
  rw [drawFrame_ok syncN cmdN s ii sub psub h1 h2]
  constructor <;>
    simp [successTrace, drawFrameTrace, List.filter, isSubmitEvent, isPresentEvent]

/-- C6 witness: the submission/present sync-object theorem applied to slot 0
with acquired image index 1 on rings of size 3. -/
theorem submit_and_present_sync_objects_witness :
    (successTrace (drawFrame 3 3 VulkanRenderer.new (.ok (1, false)) (.ok false))).filter
        isSubmitEvent
      = [.submit
          { waitSemaphores := [.imageAvailableSem 0],
            waitDstStageMask := [COLOR_ATTACHMENT_OUTPUT],
            commandBuffers := [1],
            signalSemaphores := [.renderFinishedSem 0] }
          (.inFlightFence 0)]
    ∧ (successTrace (drawFrame 3 3 VulkanRenderer.new (.ok (1, false)) (.ok false))).filter
        isPresentEvent
      = [.present [.renderFinishedSem 0] [1]] :=
  submit_and_present_sync_objects 3 3 VulkanRenderer.new 1 false false
    (by decide) (by decide)

lemma rustClampU32_eq_max_min (x lo hi : Nat) (h : lo ≤ hi) :
    rustClampU32 x lo hi = max lo (min x hi) := by
  unfold rustClampU32
  split_ifs <;> omega

/-- C7: when the surface reports the `u32::MAX` sentinel width ("client
decides"), the chosen swapchain extent is the caller-supplied window size
clamped componentwise into the surface's `[min, max]` extent bounds;
otherwise it is the surface-reported current extent verbatim.  (Bounds are
assumed ordered, as required for Rust's `clamp` not to panic.) -/
theorem choose_extent_policy (caps : VkSurfaceCapabilitiesKHR) (w h : Nat)
    (hw : caps.minImageExtent.width ≤ caps.maxImageExtent.width)
    (hh : caps.minImageExtent.height ≤ caps.maxImageExtent.height) :
    (caps.currentExtent.width = U32_MAX →
      choose_extent caps w h =
        { width := max caps.minImageExtent.width (min w caps.maxImageExtent.width),
          height := max caps.minImageExtent.height (min h caps.maxImageExtent.height) })
    ∧ (caps.currentExtent.width ≠ U32_MAX →
      choose_extent caps w h = caps.currentExtent) := by
  constructor
  · intro hs
    unfold choose_extent
    rw [if_neg (not_not_intro hs), rustClampU32_eq_max_min w _ _ hw,
      rustClampU32_eq_max_min h _ _ hh]
  · intro hs
    unfold choose_extent
    rw [if_pos hs]

/-- C7 witness: with bounds `min = {1,1}`, `max = {4096,4096}`, a sentinel
current extent and requested size `{10000,10000}`, the chosen extent is
`{4096,4096}`. -/
theorem choose_extent_policy_witness :
    choose_extent
      { minImageCount := 2, maxImageCount := 8,
        currentExtent := { width := U32_MAX, height := U32_MAX },
        minImageExtent := { width := 1, height := 1 },
        maxImageExtent := { width := 4096, height := 4096 } }
      10000 10000 = { width := 4096, height := 4096 } :=
  ((choose_extent_policy
      { minImageCount := 2, maxImageCount := 8,
        currentExtent := { width := U32_MAX, height := U32_MAX },
        minImageExtent := { width := 1, height := 1 },
        maxImageExtent := { width := 4096, height := 4096 } }
      10000 10000 (by decide) (by decide)).1 rfl).trans (by decide)

/-- C8: the pass descriptor declares exactly one color attachment, loaded
with a CLEAR (whose fixed clear value, supplied at recording, is
`[0.1, 0.1, 0.1, 1.0]`), stored at pass end, transitioning
`UNDEFINED → COLOR_ATTACHMENT_OPTIMAL (subpass reference) → PRESENT_SRC`,
with a single external-to-subpass-0 dependency on the color-output stage
whose destination access is color-attachment write. -/
theorem render_pass_descriptor_shape (format : VkFormat) (syncN maxF cf ii : Nat) :
    (renderPassCreateInfo format).attachments.length = 1
    ∧ (renderPassCreateInfo format).attachments.all
        (fun a => a.format == format
          && a.loadOp == VkAttachmentLoadOp.CLEAR
          && a.storeOp == VkAttachmentStoreOp.STORE
          && a.initialLayout == VkImageLayout.UNDEFINED
          && a.finalLayout == VkImageLayout.PRESENT_SRC_KHR) = true
    ∧ (renderPassCreateInfo format).subpasses.all
        (fun sp => sp.colorAttachments
          == [{ attachment := 0, layout := VkImageLayout.COLOR_ATTACHMENT_OPTIMAL }]) = true
    ∧ (renderPassCreateInfo format).dependencies.length = 1
    ∧ (renderPassCreateInfo format).dependencies.all
        (fun d => d.srcSubpass == SUBPASS_EXTERNAL
          && d.dstSubpass == 0
          && d.srcStageMask == COLOR_ATTACHMENT_OUTPUT
          && d.srcAccessMask == ACCESS_EMPTY
          && d.dstStageMask == COLOR_ATTACHMENT_OUTPUT
          && d.dstAccessMask == COLOR_ATTACHMENT_WRITE) = true
    ∧ FrameEvent.beginRenderPass ii recordClearColor ∈ drawFrameTrace syncN maxF cf ii
    ∧ recordClearColor = [1/10, 1/10, 1/10, 1] := by
  refine ⟨rfl, ?_, rfl, rfl, rfl, ?_, rfl⟩
  · simp [renderPassCreateInfo]
  · simp [drawFrameTrace]

/-- C9 (corrected claim): `build()` returns a descriptive error — and
constructs no pipeline configuration — when the render pass is absent, when
the extent is absent, or when no shader stage has been added; with all three
required fields present, validation at the `build()` boundary passes. -/
theorem pipeline_build_validation (b : VulkanPipelineBuilder) :
    (b.render_pass = none → b.build = .error "render_pass is required")
    ∧ (b.render_pass ≠ none → b.extent = none →
        b.build = .error "extent is required")
    ∧ (b.render_pass ≠ none → b.extent ≠ none → b.shader_entries = [] →
        b.build = .error "at least one shader stage is required")
    ∧ (b.render_pass ≠ none → b.extent ≠ none → b.shader_entries ≠ [] →
        (b.build).isOk = true) := by
  refine ⟨?_, ?_, ?_, ?_⟩
  · intro hrp
    simp [VulkanPipelineBuilder.build, hrp]
  · intro hrp he
    obtain ⟨rp, hrpeq⟩ := Option.ne_none_iff_exists'.mp hrp
    simp [VulkanPipelineBuilder.build, hrpeq, he]
  · intro hrp he hsh
    obtain ⟨rp, hrpeq⟩ := Option.ne_none_iff_exists'.mp hrp
    obtain ⟨e, heeq⟩ := Option.ne_none_iff_exists'.mp he
    simp [VulkanPipelineBuilder.build, hrpeq, heeq, hsh]
  · intro hrp he hsh
    obtain ⟨rp, hrpeq⟩ := Option.ne_none_iff_exists'.mp hrp
    obtain ⟨e, heeq⟩ := Option.ne_none_iff_exists'.mp he
    simp [VulkanPipelineBuilder.build, hrpeq, heeq, List.isEmpty_iff, hsh,
      Except.isOk, Except.toBool]

/-- C9 witness: a bare builder fails for the missing render pass; a builder
with render pass, extent and a vertex stage passes validation. -/
theorem pipeline_build_validation_witness :
    VulkanPipelineBuilder.new.build = .error "render_pass is required"
    ∧ ((((VulkanPipelineBuilder.new.set_render_pass 1).set_extent
          { width := 800, height := 600 }).with_vertex_spv 7).build).isOk = true :=
  ⟨(pipeline_build_validation VulkanPipelineBuilder.new).1 rfl,
   (pipeline_build_validation _).2.2.2 (by decide) (by decide) (by decide)⟩

/-- C9 counterexample: with the render pass set and one shader stage added
but no extent, `build()` still fails ("extent is required"), refuting the
claim that validation passes whenever the render pass is present and a
shader stage has been added. -/
theorem pipeline_build_missing_extent_cx :
    ((VulkanPipelineBuilder.new.set_render_pass 1).with_vertex_spv 7).render_pass = some 1
    ∧ ((VulkanPipelineBuilder.new.set_render_pass 1).with_vertex_spv 7).shader_entries
        = [{ module := 7, stage := SHADER_STAGE_VERTEX, entryPoint := "main" }]
    ∧ ((VulkanPipelineBuilder.new.set_render_pass 1).with_vertex_spv 7).build
        = .error "extent is required" := by
  exact ⟨rfl, rfl, rfl⟩

/-- C10: the renderer's frame index cycles through `0,1,2` (hardcoded
`max_frames_in_flight = 3`) while the sync rings are sized by the swapchain's
image count `n`; whenever `n < 3`, the `(n+1)`-th redraw call indexes the
in-flight-fence ring out of bounds in `wait_for_fence` and panics instead of
returning an error. -/
theorem small_image_count_draw_panics (n : Nat) (h : n < 3) :
    runDraws n n (n + 1) VulkanRenderer.new
      = .panic "index out of bounds: in_flight_fences"
    ∧ (runDraws n n (n + 1) VulkanRenderer.new).isErr = false := by
  interval_cases n <;> exact ⟨rfl, rfl⟩

/-- C10 witness: a 2-image swapchain (rings of size 2) panics on the third
redraw call. -/
theorem small_image_count_draw_panics_witness :
    runDraws 2 2 3 VulkanRenderer.new
      = .panic "index out of bounds: in_flight_fences"
    ∧ (runDraws 2 2 3 VulkanRenderer.new).isErr = false :=
  small_image_count_draw_panics 2 (by decide)
